import Mathlib

/-!
# Hail client (`src/client.c`): the handshake of `main`

A shallow embedding of `main` of `src/client.c`.  The function is one long
sequence of system calls followed by the handshake loop; the embedding keeps
that shape.  Every call whose result `main` reads takes its result from an
`Env` record, every call `main` makes is written to a trace of `Event`s, and
the `while (! is_connected)` loop is a structural recursion on a number of
iterations still allowed (`fuel`), so that a run that is still inside the loop
is visible as an outcome with no exit status.

`hail.h` is not part of the sources at hand.  The packet record, the control
codes and `construct_hail_packet` are modelled from the specification; the
outcome of `unpack_hail_packet` (its status and the record it fills) is an
input, like the result of a system call.
-/

namespace Hail

/-! ## Data model -/

/-- Modelled from the spec: the record `hail_packet_t` of hail.h (missing from
the sources): one field per row of the wire layout, in the order of the
arguments of `construct_hail_packet`. -/
structure hail_packet_t where
  seq_num : Nat
  ack_num : Nat
  control : Nat
  version : Nat
  file_size : Nat
  file_data : List Nat
  deriving DecidableEq, Repr

/-- Modelled from the spec: control code `SYN` of `hail_control_code_t` (hail.h is missing). -/
def SYN : Nat := 0
/-- Modelled from the spec: control code `SYN_ACK` of `hail_control_code_t` (hail.h is missing). -/
def SYN_ACK : Nat := 1
/-- Modelled from the spec: control code `ACK` of `hail_control_code_t` (hail.h is missing). -/
def ACK : Nat := 2
/-- Modelled from the spec: control code `DATA` of the wire layout (hail.h is missing). -/
def DATA : Nat := 3
/-- Modelled from the spec: control code `FIN` of the wire layout (hail.h is missing). -/
def FIN : Nat := 4

/-- The value of `EXIT_SUCCESS`. -/
def EXIT_SUCCESS : Nat := 0
/-- The value of `EXIT_FAILURE`. -/
def EXIT_FAILURE : Nat := 1

/-- Modelled from the spec: `construct_hail_packet` of hail.h (missing from the
sources).  It writes its arguments into the packet record it is given, each
reduced to the width of its wire field, and reports success (encoding never
fails for well-formed input).  The first component is the returned status, the
second the new contents of `*packet`. -/
def construct_hail_packet (_packet : hail_packet_t)
    (seq_num ack_num control version file_size : Nat) (file_data : List Nat) :
    Int × hail_packet_t :=
  (0, { seq_num := seq_num % 256,
        ack_num := ack_num % 256,
        control := control % 256,
        version := version % 256,
        file_size := file_size % 2 ^ 64,
        file_data := file_data })

/-- What the outside world answers during one iteration of the handshake loop. -/
structure Reply where
  /-- Return value of the first `sendto` of the iteration (line 183). -/
  sendto_syn : Int
  /-- Return value of `recvfrom` (line 207), stored in `bytes_received`. -/
  recvfrom_ret : Int
  /-- Return value of `unpack_hail_packet` (line 219), stored in `status`. -/
  unpack_status : Int
  /-- Contents of `recv_packet` after `unpack_hail_packet` returned. -/
  recv_packet : hail_packet_t
  /-- Return value of the second `sendto` (line 232), when it is called. -/
  sendto_ack : Int

/-- Results of the calls `main` makes, and the constants of hail.h it uses. -/
structure Env where
  /-- Constant `HAIL_CONTENT_SIZE` of hail.h. -/
  HAIL_CONTENT_SIZE : Nat
  /-- Return value of `getaddrinfo` (line 78). -/
  getaddrinfo_ret : Int
  /-- Length of the list `results` filled by `getaddrinfo`. -/
  results : Nat
  /-- Return value of the `i`-th call of `socket` (line 93). -/
  socket_ret : Nat → Int
  /-- Return value of `open` (line 110). -/
  open_ret : Int
  /-- Return value of `stat` (line 120). -/
  stat_ret : Int
  /-- Value of `S_ISREG(fileInfo.st_mode)` (line 126). -/
  is_reg : Bool
  /-- Value of `fileInfo.st_size` (line 132). -/
  st_size : Nat
  /-- Return value of `read` (line 134). -/
  read_ret : Int
  /-- Contents of the freshly allocated `*packet` (line 141). -/
  malloc_packet : hail_packet_t
  /-- Answers of the network in the `i`-th iteration of the handshake loop. -/
  net : Nat → Reply

/-- One observable action of `main`: a call it makes or a message it prints. -/
inductive Event where
  | printf_usage (prog : String)
  | printf_options_not_implemented
  | getaddrinfo (server port : String)
  | socket
  | open_file (name : String)
  | stat (name : String)
  | read (size : Nat)
  | construct_hail_packet (seq_num ack_num control version file_size : Nat)
      (file_data : List Nat)
  | sendto (packet : hail_packet_t)
  | recvfrom (bytes_received : Int)
  | unpack_hail_packet (status : Int) (recv_packet : hail_packet_t)
  | fprintf_stderr (msg : String)
  | freeaddrinfo
  | close
  | free
  deriving DecidableEq, Repr

/-- Values of the locals `seq_num`, `ack_num`, `control`, `version` of the loop body. -/
structure Locals where
  seq_num : Nat
  ack_num : Nat
  control : Nat
  version : Nat
  deriving DecidableEq, Repr

/-- How a run stands: `exit = none` means `main` has not returned (it is still
inside the handshake loop when the allowed iterations are used up). -/
structure Outcome where
  exit : Option Nat
  is_connected : Bool
  /-- Locals of the loop body at the point the loop was left (`none` before that). -/
  locals : Option Locals
  trace : List Event
  deriving DecidableEq, Repr

/-- The outcome `o` with the events `es` in front of its trace. -/
def Outcome.after (es : List Event) (o : Outcome) : Outcome :=
  { o with trace := es ++ o.trace }

/-! ## The code -/

/-- Lines 88-98: the loop `for (p = results; p != NULL; p = p->ai_next)`.  `n`
nodes of the list are left, `i` calls of `socket` were made.  The result says
whether the loop left with `p != NULL`. -/
def socket_loop (env : Env) : Nat → Nat → Bool × List Event
  | 0, _ => (false, [])
  | n + 1, i =>
    if env.socket_ret i ≠ -1 then (true, [Event.socket])
    else ((socket_loop env n (i + 1)).1, Event.socket :: (socket_loop env n (i + 1)).2)

/-- The array `file_data` (lines 145-146 and 230): `HAIL_CONTENT_SIZE` zero bytes. -/
def file_data (env : Env) : List Nat := List.replicate env.HAIL_CONTENT_SIZE 0

/-- Lines 157-252: the loop `while (! is_connected)`.  `fuel` iterations are
allowed, `i` iterations were completed, `packet` is the contents of `*packet`. -/
def handshake_loop (env : Env) : Nat → Nat → hail_packet_t → Outcome
  | 0, _, _ => { exit := none, is_connected := false, locals := none, trace := [] }
  | fuel + 1, i, packet =>
    -- lines 160-164
    let seq_num := 0
    let ack_num := 0
    let control := SYN
    let version := 0
    let file_size := env.st_size % 2 ^ 64
    -- lines 169-181
    let c := construct_hail_packet packet seq_num ack_num control version file_size
      (file_data env)
    let status := c.1
    let packet := c.2
    let t0 := Event.construct_hail_packet seq_num ack_num control version file_size
        (file_data env) ::
      (if status < 0 then [Event.fprintf_stderr "construct_hail_packet() failed!"] else [])
    -- lines 183-198
    let status := (env.net i).sendto_syn
    if status < 0 then
      { exit := some EXIT_FAILURE, is_connected := false,
        locals := some ⟨seq_num, ack_num, control, version⟩,
        trace := t0 ++ [Event.sendto packet,
          Event.fprintf_stderr "[ERROR]: SYN sendto() failed"] }
    else
      -- lines 203-222: `bytes_received` and the status of the unpacking are not read
      let recv_packet := (env.net i).recv_packet
      let bytes_received := (env.net i).recvfrom_ret
      let status := (env.net i).unpack_status
      let t1 := t0 ++ [Event.sendto packet, Event.recvfrom bytes_received,
        Event.unpack_hail_packet status recv_packet]
      -- lines 225-251
      if recv_packet.control = SYN_ACK then
        let seq_num := (recv_packet.seq_num + 1) % 256
        let ack_num := recv_packet.seq_num
        let control := ACK
        let version := 0
        let status := (env.net i).sendto_ack
        if status < 0 then
          { exit := some EXIT_FAILURE, is_connected := false,
            locals := some ⟨seq_num, ack_num, control, version⟩,
            trace := t1 ++ [Event.sendto packet,
              Event.fprintf_stderr "[ERROR]: ACK sendto() failed"] }
        else
          { exit := none, is_connected := true,
            locals := some ⟨seq_num, ack_num, control, version⟩,
            trace := t1 ++ [Event.sendto packet] }
      else
        (handshake_loop env fuel (i + 1) packet).after t1

/-- Lines 253-268: what follows the handshake loop.  An outcome that already
has an exit status returned from inside the loop; one that left the loop
connected releases its resources and returns `EXIT_SUCCESS`; any other is
still inside the loop. -/
def after_loop (o : Outcome) : Outcome :=
  match o.exit with
  | some _ => o
  | none =>
    if o.is_connected then
      { o with exit := some EXIT_SUCCESS,
               trace := o.trace ++ [Event.freeaddrinfo, Event.close,
                 Event.free, Event.free, Event.free] }
    else o

/-- Lines 20-269: `main`.  `argv` is the argument vector (`argc` is its length),
`fuel` the number of iterations the handshake loop may take. -/
def main (env : Env) (argv : List String) (fuel : Nat) : Outcome :=
  let argc := argv.length
  -- lines 34-53
  if argc < 4 then
    ⟨some EXIT_FAILURE, false, none, [Event.printf_usage (argv.getD 0 "")]⟩
  else if argc = 7 then
    ⟨some EXIT_FAILURE, false, none, [Event.printf_options_not_implemented]⟩
  else
    -- lines 56-58
    let HAIL_SERVER := argv.getD 1 ""
    let HAIL_PORT := argv.getD 2 ""
    let FILE_NAME := argv.getD 3 ""
    -- lines 78-84
    let t := [Event.getaddrinfo HAIL_SERVER HAIL_PORT]
    if env.getaddrinfo_ret < 0 then
      ⟨some EXIT_FAILURE, false, none,
        t ++ [Event.fprintf_stderr "[ERROR]: getaddrinfo() failed"]⟩
    else
      -- lines 88-104
      let s := socket_loop env env.results 0
      let t := t ++ s.2
      if s.1 = false then
        ⟨some EXIT_FAILURE, false, none,
          t ++ [Event.fprintf_stderr "[ERROR]: getaddrinfo() gave no working sockets"]⟩
      else
        -- lines 110-114
        let t := t ++ [Event.open_file FILE_NAME]
        if env.open_ret < 0 then
          ⟨some EXIT_FAILURE, false, none,
            t ++ [Event.fprintf_stderr "[ERROR]: open() failed"]⟩
        else
          -- lines 118-123
          let t := t ++ [Event.stat FILE_NAME]
          if env.stat_ret < 0 then
            ⟨some EXIT_FAILURE, false, none,
              t ++ [Event.fprintf_stderr "[ERROR]: stat() failed"]⟩
          -- lines 126-129
          else if env.is_reg = false then
            ⟨some EXIT_FAILURE, false, none,
              t ++ [Event.fprintf_stderr "[ERROR]: stat(): not a regular file"]⟩
          else
            -- lines 132-137
            let fileSize := env.st_size
            let t := t ++ [Event.read fileSize]
            if env.read_ret < 0 then
              ⟨some EXIT_FAILURE, false, none,
                t ++ [Event.fprintf_stderr "[ERROR]: read() into buffer failed"]⟩
            else
              -- lines 141-268
              after_loop ((handshake_loop env fuel 0 env.malloc_packet).after t)

/-! ## Observations on a trace -/

/-- The datagrams handed to `sendto`, in order. -/
def sent : List Event → List hail_packet_t
  | [] => []
  | Event.sendto p :: t => p :: sent t
  | _ :: t => sent t

/-- A transport call: a send or a receive. -/
inductive NetOp where
  | send
  | receive
  deriving DecidableEq, Repr

/-- The transport calls of a trace, in order. -/
def net_ops : List Event → List NetOp
  | [] => []
  | Event.sendto _ :: t => NetOp.send :: net_ops t
  | Event.recvfrom _ :: t => NetOp.receive :: net_ops t
  | _ :: t => net_ops t

/-- The transport calls of `n` iterations that all end without a SYN_ACK. -/
def rounds : Nat → List NetOp
  | 0 => []
  | n + 1 => NetOp.send :: NetOp.receive :: rounds n

/-- The events of a trace that reach outside the process: address resolution,
socket creation, file access, and the transport calls. -/
def is_system_call : Event → Bool
  | Event.getaddrinfo _ _ => true
  | Event.socket => true
  | Event.open_file _ => true
  | Event.stat _ => true
  | Event.read _ => true
  | Event.sendto _ => true
  | Event.recvfrom _ => true
  | Event.freeaddrinfo => true
  | Event.close => true
  | _ => false

/-- The packet every call of `construct_hail_packet` in the loop is asked to build. -/
def syn_packet (env : Env) : hail_packet_t :=
  { seq_num := 0, ack_num := 0, control := SYN, version := 0,
    file_size := env.st_size % 2 ^ 64, file_data := file_data env }

/-- Everything before the handshake loop succeeds: the argument count passes
both tests, `getaddrinfo` does not fail, some `socket` call works, and the file
is opened, inspected and read. -/
def SetupOk (env : Env) (argv : List String) : Prop :=
  4 ≤ argv.length ∧ argv.length ≠ 7 ∧ 0 ≤ env.getaddrinfo_ret ∧
  (socket_loop env env.results 0).1 = true ∧
  0 ≤ env.open_ret ∧ 0 ≤ env.stat_ret ∧ env.is_reg = true ∧ 0 ≤ env.read_ret

instance (env : Env) (argv : List String) : Decidable (SetupOk env argv) := by
  unfold SetupOk
  infer_instance

/-- The events of `main` before the handshake loop, when everything succeeds. -/
def setup_trace (env : Env) (argv : List String) : List Event :=
  [Event.getaddrinfo (argv.getD 1 "") (argv.getD 2 "")] ++ (socket_loop env env.results 0).2 ++
    [Event.open_file (argv.getD 3 "")] ++ [Event.stat (argv.getD 3 "")] ++
    [Event.read env.st_size]

/-! ## Concrete environments -/

/-- A reply carrying a packet with the given control code and sequence number;
every call succeeds. -/
def reply_with (control seq_num : Nat) : Reply :=
  { sendto_syn := 532, recvfrom_ret := 532, unpack_status := 0,
    recv_packet := { seq_num := seq_num, ack_num := 0, control := control, version := 0,
                     file_size := 0, file_data := [] },
    sendto_ack := 532 }

/-- An environment in which every call before the loop succeeds, for a file of
ten bytes, and the network answers `net`. -/
def env_with (net : Nat → Reply) : Env :=
  { HAIL_CONTENT_SIZE := 4, getaddrinfo_ret := 0, results := 1, socket_ret := fun _ => 3,
    open_ret := 4, stat_ret := 0, is_reg := true, st_size := 10, read_ret := 10,
    malloc_packet := ⟨7, 7, 7, 7, 7, [7]⟩, net := net }

/-- The argument vector `client localhost 5000 notes.txt`. -/
def argv3 : List String := ["client", "localhost", "5000", "notes.txt"]

/-- A network whose every reply unpacks to a SYN_ACK with sequence number `s`. -/
def syn_ack_net (s : Nat) : Nat → Reply := fun _ => reply_with SYN_ACK s

/-- A network whose every reply makes `unpack_hail_packet` report failure while
the record it leaves carries the control code SYN_ACK. -/
def failed_unpack_net : Nat → Reply :=
  fun _ => { reply_with SYN_ACK 5 with unpack_status := -1 }

/-- A network whose first `recvfrom` fails, leaving the zeroed receive buffer,
and whose second reply is a SYN_ACK. -/
def failed_recvfrom_net : Nat → Reply :=
  fun i => if i = 0 then { reply_with 0 0 with recvfrom_ret := -1 } else reply_with SYN_ACK 9

/-- A network on which no SYN_ACK ever arrives: every send succeeds, every
receive yields nothing and leaves the zeroed record. -/
def silent_net : Nat → Reply :=
  fun _ => { reply_with 0 0 with recvfrom_ret := 0 }

/-- The argument vector `client localhost 5000 notes.txt -l 0.5 -s`. -/
def argv_options : List String := argv3 ++ ["-l", "0.5", "-s"]

/-- An environment in which `open` fails. -/
def env_open_fails : Env := { env_with (syn_ack_net 5) with open_ret := -1 }

/-- The events of one iteration of the handshake loop up to the test of the
control code of the reply, in iteration `i`. -/
def iteration_events (env : Env) (i : Nat) : List Event :=
  [Event.construct_hail_packet 0 0 SYN 0 (env.st_size % 2 ^ 64) (file_data env),
   Event.sendto (syn_packet env), Event.recvfrom (env.net i).recvfrom_ret,
   Event.unpack_hail_packet (env.net i).unpack_status (env.net i).recv_packet]

/-! ## Lemmas on traces -/

theorem sent_append (a b : List Event) : sent (a ++ b) = sent a ++ sent b := by
  induction a with
  | nil => rfl
  | cons e t ih => cases e <;> simp [sent, ih]

theorem net_ops_append (a b : List Event) : net_ops (a ++ b) = net_ops a ++ net_ops b := by
  induction a with
  | nil => rfl
  | cons e t ih => cases e <;> simp [net_ops, ih]

theorem sent_socket_loop (env : Env) (n i : Nat) : sent (socket_loop env n i).2 = [] := by
  induction n generalizing i with
  | zero => rfl
  | succ n ih =>
    unfold socket_loop
    split
    · rfl
    · simpa [sent] using ih (i + 1)

theorem mem_socket_loop (env : Env) (n i : Nat) (e : Event)
    (h : e ∈ (socket_loop env n i).2) : e = Event.socket := by
  induction n generalizing i with
  | zero => simp [socket_loop] at h
  | succ n ih =>
    unfold socket_loop at h
    split at h
    · simpa using h
    · rcases List.mem_cons.mp h with h | h
      · exact h
      · exact ih (i + 1) h

theorem net_ops_socket_loop (env : Env) (n i : Nat) : net_ops (socket_loop env n i).2 = [] := by
  induction n generalizing i with
  | zero => rfl
  | succ n ih =>
    unfold socket_loop
    split
    · rfl
    · simpa [net_ops] using ih (i + 1)

theorem net_ops_setup_trace (env : Env) (argv : List String) :
    net_ops (setup_trace env argv) = [] := by
  simp [setup_trace, net_ops_append, net_ops_socket_loop, net_ops]

theorem sent_setup_trace (env : Env) (argv : List String) :
    sent (setup_trace env argv) = [] := by
  simp [setup_trace, sent_append, sent_socket_loop, sent]

/-- A stretch of events without a send, at the front of a trace, lies before
the first send of the trace. -/
theorem prefix_of_no_send (a rest pre post : List Event) (p : hail_packet_t)
    (hs : sent a = []) (h : a ++ rest = pre ++ Event.sendto p :: post) :
    ∃ r, pre = a ++ r := by
  induction a generalizing pre with
  | nil => exact ⟨pre, rfl⟩
  | cons e t ih =>
    cases pre with
    | nil =>
      simp only [List.cons_append, List.nil_append, List.cons.injEq] at h
      rw [h.1] at hs
      simp [sent] at hs
    | cons e2 pre2 =>
      simp only [List.cons_append, List.cons.injEq] at h
      have hst : sent t = [] := by
        cases e <;> simp_all [sent]
      obtain ⟨r, hr⟩ := ih pre2 hst h.2
      exact ⟨r, by rw [h.1, hr]; rfl⟩

theorem sent_iteration_events (env : Env) (i : Nat) :
    sent (iteration_events env i) = [syn_packet env] := rfl

theorem net_ops_iteration_events (env : Env) (i : Nat) :
    net_ops (iteration_events env i) = [NetOp.send, NetOp.receive] := rfl

/-! ## Lemmas on the code -/

theorem construct_syn (env : Env) (packet : hail_packet_t) :
    construct_hail_packet packet 0 0 SYN 0 (env.st_size % 2 ^ 64) (file_data env) =
      (0, syn_packet env) := by
  simp [construct_hail_packet, syn_packet, SYN]

/-- One iteration of the handshake loop, with the packet built. -/
theorem handshake_loop_succ (env : Env) (fuel i : Nat) (packet : hail_packet_t) :
    handshake_loop env (fuel + 1) i packet =
      if (env.net i).sendto_syn < 0 then
        { exit := some EXIT_FAILURE, is_connected := false,
          locals := some ⟨0, 0, SYN, 0⟩,
          trace := [Event.construct_hail_packet 0 0 SYN 0 (env.st_size % 2 ^ 64) (file_data env),
            Event.sendto (syn_packet env),
            Event.fprintf_stderr "[ERROR]: SYN sendto() failed"] }
      else if (env.net i).recv_packet.control = SYN_ACK then
        if (env.net i).sendto_ack < 0 then
          { exit := some EXIT_FAILURE, is_connected := false,
            locals := some ⟨((env.net i).recv_packet.seq_num + 1) % 256,
              (env.net i).recv_packet.seq_num, ACK, 0⟩,
            trace := iteration_events env i ++ [Event.sendto (syn_packet env),
              Event.fprintf_stderr "[ERROR]: ACK sendto() failed"] }
        else
          { exit := none, is_connected := true,
            locals := some ⟨((env.net i).recv_packet.seq_num + 1) % 256,
              (env.net i).recv_packet.seq_num, ACK, 0⟩,
            trace := iteration_events env i ++ [Event.sendto (syn_packet env)] }
      else (handshake_loop env fuel (i + 1) (syn_packet env)).after (iteration_events env i) := by
  rw [handshake_loop]
  simp only [construct_syn, lt_self_iff_false, if_false, iteration_events]
  split_ifs <;> simp

theorem main_of_setup (env : Env) (argv : List String) (fuel : Nat) (h : SetupOk env argv) :
    main env argv fuel =
      after_loop ((handshake_loop env fuel 0 env.malloc_packet).after (setup_trace env argv)) := by
  obtain ⟨h4, h7, hg, hs, ho, hst, hr, hrd⟩ := h
  unfold main
  simp [Nat.not_lt.mpr h4, h7, Int.not_lt.mpr hg, hs, Int.not_lt.mpr ho, Int.not_lt.mpr hst, hr,
    Int.not_lt.mpr hrd, setup_trace]

/-- When something before the loop fails, `main` returns `EXIT_FAILURE`
without building or sending a packet. -/
theorem main_of_not_setup (env : Env) (argv : List String) (fuel : Nat)
    (h : ¬ SetupOk env argv) :
    (main env argv fuel).exit = some EXIT_FAILURE ∧ (main env argv fuel).is_connected = false ∧
      sent (main env argv fuel).trace = [] ∧
      ∀ a b c d s l, Event.construct_hail_packet a b c d s l ∉ (main env argv fuel).trace := by
  unfold main
  by_cases h4 : argv.length < 4
  · simp [h4, sent]
  by_cases h7 : argv.length = 7
  · simp [h4, h7, sent]
  by_cases hg : env.getaddrinfo_ret < 0
  · simp [h4, h7, hg, sent]
  by_cases hs : (socket_loop env env.results 0).1 = false
  · simp [h4, h7, hg, hs, sent, sent_append, sent_socket_loop]
    intro a b c d s l hm
    simpa using mem_socket_loop env _ _ _ hm
  by_cases ho : env.open_ret < 0
  · simp [h4, h7, hg, hs, ho, sent, sent_append, sent_socket_loop]
    intro a b c d s l hm
    simpa using mem_socket_loop env _ _ _ hm
  by_cases hst : env.stat_ret < 0
  · simp [h4, h7, hg, hs, ho, hst, sent, sent_append, sent_socket_loop]
    intro a b c d s l hm
    simpa using mem_socket_loop env _ _ _ hm
  by_cases hr : env.is_reg = false
  · simp [h4, h7, hg, hs, ho, hst, hr, sent, sent_append, sent_socket_loop]
    intro a b c d s l hm
    simpa using mem_socket_loop env _ _ _ hm
  by_cases hrd : env.read_ret < 0
  · simp [h4, h7, hg, hs, ho, hst, hr, hrd, sent, sent_append, sent_socket_loop]
    intro a b c d s l hm
    simpa using mem_socket_loop env _ _ _ hm
  exact absurd ⟨Nat.not_lt.mp h4, h7, Int.not_lt.mp hg, by simpa using hs, Int.not_lt.mp ho,
    Int.not_lt.mp hst, by simpa using hr, Int.not_lt.mp hrd⟩ h

@[simp] theorem after_exit (es : List Event) (o : Outcome) : (o.after es).exit = o.exit := rfl

@[simp] theorem after_is_connected (es : List Event) (o : Outcome) :
    (o.after es).is_connected = o.is_connected := rfl

@[simp] theorem after_locals (es : List Event) (o : Outcome) :
    (o.after es).locals = o.locals := rfl

@[simp] theorem after_trace (es : List Event) (o : Outcome) :
    (o.after es).trace = es ++ o.trace := rfl

/-- Every datagram the loop sends is the packet built for the SYN. -/
theorem loop_sent (env : Env) (fuel i : Nat) (packet p : hail_packet_t)
    (h : p ∈ sent (handshake_loop env fuel i packet).trace) : p = syn_packet env := by
  induction fuel generalizing i packet with
  | zero => simp [handshake_loop, sent] at h
  | succ n ih =>
    rw [handshake_loop_succ] at h
    split_ifs at h
    · simpa [sent] using h
    · simpa [sent_append, sent_iteration_events, sent] using h
    · simpa [sent_append, sent_iteration_events, sent] using h
    · simp only [after_trace, sent_append, sent_iteration_events, List.mem_append,
        List.mem_singleton] at h
      rcases h with h | h
      · exact h
      · exact ih _ _ h

/-- Every call of `construct_hail_packet` in the loop has the arguments of the SYN. -/
theorem loop_construct (env : Env) (fuel i : Nat) (packet : hail_packet_t)
    (a b c d s : Nat) (l : List Nat)
    (h : Event.construct_hail_packet a b c d s l ∈ (handshake_loop env fuel i packet).trace) :
    a = 0 ∧ b = 0 ∧ c = SYN ∧ d = 0 ∧ s = env.st_size % 2 ^ 64 ∧ l = file_data env := by
  induction fuel generalizing i packet with
  | zero => simp [handshake_loop] at h
  | succ n ih =>
    rw [handshake_loop_succ] at h
    split_ifs at h
    · simpa using h
    · simpa [iteration_events] using h
    · simpa [iteration_events] using h
    · simp only [after_trace, List.mem_append] at h
      rcases h with h | h
      · simpa [iteration_events] using h
      · exact ih _ _ h

/-- The loop returns only with `EXIT_FAILURE`, and then it is not connected. -/
theorem loop_exit (env : Env) (fuel i : Nat) (packet : hail_packet_t) (c : Nat)
    (h : (handshake_loop env fuel i packet).exit = some c) :
    c = EXIT_FAILURE ∧ (handshake_loop env fuel i packet).is_connected = false := by
  induction fuel generalizing i packet with
  | zero => simp [handshake_loop] at h
  | succ n ih =>
    rw [handshake_loop_succ] at h ⊢
    by_cases h1 : (env.net i).sendto_syn < 0
    · rw [if_pos h1] at h ⊢
      simpa [eq_comm] using h
    rw [if_neg h1] at h ⊢
    by_cases h2 : (env.net i).recv_packet.control = SYN_ACK
    · rw [if_pos h2] at h ⊢
      by_cases h3 : (env.net i).sendto_ack < 0
      · rw [if_pos h3] at h ⊢
        simpa [eq_comm] using h
      · rw [if_neg h3] at h
        simp at h
    rw [if_neg h2] at h ⊢
    simpa using ih _ _ (by simpa using h)

/-- The loop is left connected only through a reply whose record says SYN_ACK,
after one more send of the same packet. -/
theorem loop_connected (env : Env) (fuel i : Nat) (packet : hail_packet_t)
    (h : (handshake_loop env fuel i packet).is_connected = true) :
    (handshake_loop env fuel i packet).exit = none ∧
      ∃ k, k < fuel ∧ (env.net (i + k)).recv_packet.control = SYN_ACK ∧
        0 ≤ (env.net (i + k)).sendto_ack ∧
        sent (handshake_loop env fuel i packet).trace = List.replicate (k + 2) (syn_packet env) ∧
        net_ops (handshake_loop env fuel i packet).trace = rounds (k + 1) ++ [NetOp.send] := by
  induction fuel generalizing i packet with
  | zero => simp [handshake_loop] at h
  | succ n ih =>
    rw [handshake_loop_succ] at h ⊢
    by_cases h1 : (env.net i).sendto_syn < 0
    · rw [if_pos h1] at h
      simp at h
    rw [if_neg h1] at h ⊢
    by_cases h2 : (env.net i).recv_packet.control = SYN_ACK
    · rw [if_pos h2] at h ⊢
      by_cases h3 : (env.net i).sendto_ack < 0
      · rw [if_pos h3] at h
        simp at h
      · rw [if_neg h3]
        refine ⟨rfl, 0, Nat.succ_pos n, by simpa using h2, by simpa using Int.not_lt.mp h3, ?_, ?_⟩
        · simp [sent_append, sent_iteration_events, sent, List.replicate]
        · simp [net_ops_append, net_ops_iteration_events, net_ops, rounds]
    rw [if_neg h2] at h ⊢
    obtain ⟨he, k, hk, hc, hs, hsent, hops⟩ := ih (i + 1) (syn_packet env) (by simpa using h)
    refine ⟨by simpa using he, k + 1, Nat.succ_lt_succ hk, ?_, ?_, ?_, ?_⟩
    · simpa [Nat.add_assoc, Nat.add_comm 1 k] using hc
    · simpa [Nat.add_assoc, Nat.add_comm 1 k] using hs
    · simp only [after_trace, sent_append, sent_iteration_events, hsent]
      simp [List.replicate]
    · simp only [after_trace, net_ops_append, net_ops_iteration_events, hops]
      simp [rounds]

/-- While every SYN is sent and no reply says SYN_ACK, the loop goes on: after
`fuel` iterations it has sent `fuel` times the same packet and is still running. -/
theorem loop_no_syn_ack (env : Env) (fuel i : Nat) (packet : hail_packet_t)
    (h : ∀ j, 0 ≤ (env.net (i + j)).sendto_syn ∧ (env.net (i + j)).recv_packet.control ≠ SYN_ACK) :
    (handshake_loop env fuel i packet).exit = none ∧
      (handshake_loop env fuel i packet).is_connected = false ∧
      sent (handshake_loop env fuel i packet).trace = List.replicate fuel (syn_packet env) ∧
      net_ops (handshake_loop env fuel i packet).trace = rounds fuel := by
  induction fuel generalizing i packet with
  | zero => simp [handshake_loop, sent, net_ops, rounds]
  | succ n ih =>
    have h0 := h 0
    rw [Nat.add_zero] at h0
    have hrec := ih (i + 1) (syn_packet env) (fun j => by
      have := h (1 + j)
      rwa [← Nat.add_assoc] at this)
    rw [handshake_loop_succ]
    rw [if_neg (Int.not_lt.mpr h0.1), if_neg h0.2]
    obtain ⟨h1, h2, h3, h4⟩ := hrec
    refine ⟨by simpa using h1, by simpa using h2, ?_, ?_⟩
    · simp [sent_append, sent_iteration_events, h3, List.replicate]
    · simp [net_ops_append, net_ops_iteration_events, h4, rounds]

/-! ## Lemmas on what follows the loop -/

theorem after_loop_is_connected (o : Outcome) :
    (after_loop o).is_connected = o.is_connected := by
  unfold after_loop
  split
  · rfl
  · split <;> rfl

theorem after_loop_sent (o : Outcome) : sent (after_loop o).trace = sent o.trace := by
  unfold after_loop
  split
  · rfl
  · split
    · simp [sent_append, sent]
    · rfl

theorem after_loop_net_ops (o : Outcome) : net_ops (after_loop o).trace = net_ops o.trace := by
  unfold after_loop
  split
  · rfl
  · split
    · simp [net_ops_append, net_ops]
    · rfl

theorem after_loop_construct (o : Outcome) (a b c d s : Nat) (l : List Nat)
    (h : Event.construct_hail_packet a b c d s l ∈ (after_loop o).trace) :
    Event.construct_hail_packet a b c d s l ∈ o.trace := by
  unfold after_loop at h
  split at h
  · exact h
  · split at h
    · simpa using h
    · exact h

theorem after_loop_exit_of_running (o : Outcome) (he : o.exit = none)
    (hc : o.is_connected = false) : (after_loop o).exit = none := by
  unfold after_loop
  simp [he, hc]

theorem after_loop_exit_of_connected (o : Outcome) (he : o.exit = none)
    (hc : o.is_connected = true) : (after_loop o).exit = some EXIT_SUCCESS := by
  unfold after_loop
  simp [he, hc]

theorem after_loop_exit_of_returned (o : Outcome) (c : Nat) (he : o.exit = some c) :
    (after_loop o).exit = some c := by
  unfold after_loop
  simp [he]

theorem after_loop_trace (o : Outcome) : ∃ c, (after_loop o).trace = o.trace ++ c := by
  unfold after_loop
  split
  · exact ⟨[], by simp⟩
  · split
    · exact ⟨_, rfl⟩
    · exact ⟨[], by simp⟩

/-- A run that returns `EXIT_SUCCESS` passed the setup and left the loop connected. -/
theorem main_exit_success (env : Env) (argv : List String) (fuel : Nat)
    (h : (main env argv fuel).exit = some EXIT_SUCCESS) :
    SetupOk env argv ∧ (handshake_loop env fuel 0 env.malloc_packet).is_connected = true := by
  by_cases hs : SetupOk env argv
  · refine ⟨hs, ?_⟩
    rw [main_of_setup env argv fuel hs] at h
    cases hx : (handshake_loop env fuel 0 env.malloc_packet).exit with
    | some c =>
      have hc := (loop_exit env fuel 0 _ c hx).1
      rw [after_loop_exit_of_returned _ c (by simpa using hx)] at h
      rw [hc] at h
      simp [EXIT_FAILURE, EXIT_SUCCESS] at h
    | none =>
      cases hb : (handshake_loop env fuel 0 env.malloc_packet).is_connected with
      | true => rfl
      | false =>
        rw [after_loop_exit_of_running _ (by simpa using hx) (by simpa using hb)] at h
        simp at h
  · have := (main_of_not_setup env argv fuel hs).1
    rw [this] at h
    simp [EXIT_FAILURE, EXIT_SUCCESS] at h

/-- A run in which the setup passes, every SYN is sent and no reply says SYN_ACK. -/
theorem main_no_syn_ack (env : Env) (argv : List String) (fuel : Nat) (hs : SetupOk env argv)
    (h : ∀ i, 0 ≤ (env.net i).sendto_syn ∧ (env.net i).recv_packet.control ≠ SYN_ACK) :
    (main env argv fuel).exit = none ∧ (main env argv fuel).is_connected = false ∧
      sent (main env argv fuel).trace = List.replicate fuel (syn_packet env) ∧
      net_ops (main env argv fuel).trace = rounds fuel := by
  obtain ⟨h1, h2, h3, h4⟩ := loop_no_syn_ack env fuel 0 env.malloc_packet
    (fun j => by simpa using h j)
  rw [main_of_setup env argv fuel hs]
  refine ⟨after_loop_exit_of_running _ (by simpa using h1) (by simpa using h2), ?_, ?_, ?_⟩
  · rw [after_loop_is_connected]
    simpa using h2
  · rw [after_loop_sent]
    simp [sent_append, sent_setup_trace, h3]
  · rw [after_loop_net_ops]
    have : net_ops (setup_trace env argv) = [] := by
      simp [setup_trace, net_ops_append, net_ops_socket_loop, net_ops]
    simp [net_ops_append, this, h4]

theorem setup_ok_env_with (net : Nat → Reply) : SetupOk (env_with net) argv3 := by
  simp [SetupOk, env_with, argv3, socket_loop]

/-! ## The allowed number of iterations

Once the loop has been left, allowing more iterations changes nothing: an
outcome with an exit status is the outcome of every longer run. -/

theorem loop_fuel_stable (env : Env) (n i : Nat) (packet : hail_packet_t)
    (h : (handshake_loop env n i packet).exit ≠ none ∨
      (handshake_loop env n i packet).is_connected = true) :
    handshake_loop env (n + 1) i packet = handshake_loop env n i packet := by
  induction n generalizing i packet with
  | zero => simp [handshake_loop] at h
  | succ n ih =>
    rw [handshake_loop_succ env (n + 1) i packet, handshake_loop_succ env n i packet]
    rw [handshake_loop_succ env n i packet] at h
    by_cases h1 : (env.net i).sendto_syn < 0
    · simp only [if_pos h1]
    simp only [if_neg h1] at h ⊢
    by_cases h2 : (env.net i).recv_packet.control = SYN_ACK
    · simp only [if_pos h2]
    simp only [if_neg h2] at h ⊢
    rw [ih (i + 1) (syn_packet env) (by simpa using h)]

theorem main_fuel_irrelevant_of_not_setup (env : Env) (argv : List String) (m n : Nat)
    (h : ¬ SetupOk env argv) : main env argv m = main env argv n := by
  unfold main
  by_cases h4 : argv.length < 4
  · simp [h4]
  by_cases h7 : argv.length = 7
  · simp [h4, h7]
  by_cases hg : env.getaddrinfo_ret < 0
  · simp [h4, h7, hg]
  by_cases hs : (socket_loop env env.results 0).1 = false
  · simp [h4, h7, hg, hs]
  by_cases ho : env.open_ret < 0
  · simp [h4, h7, hg, hs, ho]
  by_cases hst : env.stat_ret < 0
  · simp [h4, h7, hg, hs, ho, hst]
  by_cases hr : env.is_reg = false
  · simp [h4, h7, hg, hs, ho, hst, hr]
  by_cases hrd : env.read_ret < 0
  · simp [h4, h7, hg, hs, ho, hst, hr, hrd]
  exact absurd ⟨Nat.not_lt.mp h4, h7, Int.not_lt.mp hg, by simpa using hs, Int.not_lt.mp ho,
    Int.not_lt.mp hst, by simpa using hr, Int.not_lt.mp hrd⟩ h

/-- A run that has returned is the run for every larger number of allowed iterations. -/
theorem main_fuel_stable (env : Env) (argv : List String) (n : Nat)
    (h : (main env argv n).exit ≠ none) : main env argv (n + 1) = main env argv n := by
  by_cases hs : SetupOk env argv
  · rw [main_of_setup env argv n hs] at h
    rw [main_of_setup env argv (n + 1) hs, main_of_setup env argv n hs]
    rw [loop_fuel_stable env n 0 env.malloc_packet]
    by_contra hc
    simp only [not_or, not_not, Bool.not_eq_true] at hc
    exact h (after_loop_exit_of_running _ (by simpa using hc.1) (by simpa using hc.2))
  · exact main_fuel_irrelevant_of_not_setup env argv (n + 1) n hs

/-- In an iteration whose SYN is sent and whose reply has a record with a
control code other than SYN_ACK, nothing more is sent and the loop goes on to
its next iteration, whatever `recvfrom` and `unpack_hail_packet` returned. -/
theorem loop_discards_other_control (env : Env) (fuel i : Nat) (packet : hail_packet_t)
    (h1 : 0 ≤ (env.net i).sendto_syn) (h2 : (env.net i).recv_packet.control ≠ SYN_ACK) :
    handshake_loop env (fuel + 1) i packet =
      (handshake_loop env fuel (i + 1) (syn_packet env)).after (iteration_events env i) := by
  rw [handshake_loop_succ, if_neg (Int.not_lt.mpr h1), if_neg h2]

/-- A failing `sendto` of the SYN ends the loop at once with `EXIT_FAILURE`. -/
theorem loop_syn_sendto_fails (env : Env) (fuel i : Nat) (packet : hail_packet_t)
    (h1 : (env.net i).sendto_syn < 0) :
    (handshake_loop env (fuel + 1) i packet).exit = some EXIT_FAILURE ∧
      net_ops (handshake_loop env (fuel + 1) i packet).trace = [NetOp.send] := by
  rw [handshake_loop_succ, if_pos h1]
  exact ⟨rfl, rfl⟩

/-- A failing second `sendto` ends the loop at once with `EXIT_FAILURE`. -/
theorem loop_ack_sendto_fails (env : Env) (fuel i : Nat) (packet : hail_packet_t)
    (h1 : 0 ≤ (env.net i).sendto_syn) (h2 : (env.net i).recv_packet.control = SYN_ACK)
    (h3 : (env.net i).sendto_ack < 0) :
    (handshake_loop env (fuel + 1) i packet).exit = some EXIT_FAILURE ∧
      net_ops (handshake_loop env (fuel + 1) i packet).trace =
        [NetOp.send, NetOp.receive, NetOp.send] := by
  rw [handshake_loop_succ, if_neg (Int.not_lt.mpr h1), if_pos h2, if_pos h3]
  exact ⟨rfl, rfl⟩

/-! ## The claims -/

/-- C1 (the code departs from the claim).  When the reply unpacks to a SYN_ACK
with sequence number `s`, the loop sets its locals to the values of the ACK
(`seq_num = (s + 1) mod 256`, `ack_num = s`, `control = ACK`) but never builds
a packet from them: the datagram sent next is the packet of the SYN once more,
with control SYN, ack_number 0 and sequence_number 0.  The client is connected
after that send. -/
theorem C1_datagram_after_syn_ack_is_the_syn_again (s fuel : Nat) :
    (main (env_with (syn_ack_net s)) argv3 (fuel + 1)).locals =
        some ⟨(s + 1) % 256, s, ACK, 0⟩ ∧
      sent (main (env_with (syn_ack_net s)) argv3 (fuel + 1)).trace =
        [⟨0, 0, SYN, 0, 10, [0, 0, 0, 0]⟩, ⟨0, 0, SYN, 0, 10, [0, 0, 0, 0]⟩] ∧
      SYN ≠ ACK ∧
      (main (env_with (syn_ack_net s)) argv3 (fuel + 1)).is_connected = true := by
  refine ⟨rfl, rfl, by decide, rfl⟩

/-- C2 (counterexample).  For a file of ten bytes and a first reply that is a
SYN_ACK, `main` returns exit status 0 after two sends, and neither datagram is
a DATA or a FIN packet. -/
theorem C2_exit_success_without_data :
    (env_with (syn_ack_net 5)).st_size = 10 ∧
      (main (env_with (syn_ack_net 5)) argv3 1).exit = some 0 ∧
      (sent (main (env_with (syn_ack_net 5)) argv3 1).trace).length = 2 ∧
      ∀ p ∈ sent (main (env_with (syn_ack_net 5)) argv3 1).trace,
        p.control ≠ DATA ∧ p.control ≠ FIN := by
  decide

/-- C2 (amended).  Whenever `main` returns exit status 0 the handshake, and only
the handshake, has taken place: the client is connected, some reply `k` had a
record with control SYN_ACK and the send answering it succeeded, the transport
calls of the run are the `k + 1` rounds of one send and one receive followed by
that one send, with no transport call after it, and no datagram sent during
the run is a DATA or a FIN packet. -/
theorem C2_exit_success_is_handshake_only (env : Env) (argv : List String) (fuel : Nat)
    (h : (main env argv fuel).exit = some EXIT_SUCCESS) :
    (main env argv fuel).is_connected = true ∧
      (∃ k, k < fuel ∧ (env.net k).recv_packet.control = SYN_ACK ∧
        0 ≤ (env.net k).sendto_ack ∧
        net_ops (main env argv fuel).trace = rounds (k + 1) ++ [NetOp.send]) ∧
      ∀ p ∈ sent (main env argv fuel).trace, p.control ≠ DATA ∧ p.control ≠ FIN := by
  obtain ⟨hs, hc⟩ := main_exit_success env argv fuel h
  obtain ⟨_, k, hk, hctl, hack, hsent, hops⟩ :=
    loop_connected env fuel 0 env.malloc_packet hc
  have hsent2 : sent (main env argv fuel).trace = List.replicate (k + 2) (syn_packet env) := by
    rw [main_of_setup env argv fuel hs, after_loop_sent]
    simp [sent_append, sent_setup_trace, hsent]
  have hops2 : net_ops (main env argv fuel).trace = rounds (k + 1) ++ [NetOp.send] := by
    rw [main_of_setup env argv fuel hs, after_loop_net_ops]
    simp only [after_trace, net_ops_append, net_ops_setup_trace, hops, List.nil_append]
  refine ⟨?_, ⟨k, hk, by simpa using hctl, by simpa using hack, hops2⟩, ?_⟩
  · rw [main_of_setup env argv fuel hs, after_loop_is_connected]
    simpa using hc
  · intro p hp
    rw [hsent2] at hp
    have := List.eq_of_mem_replicate hp
    subst this
    simp [syn_packet, SYN, DATA, FIN]

theorem C2_exit_success_is_handshake_only_witness :
    (main (env_with (syn_ack_net 5)) argv3 1).exit = some EXIT_SUCCESS ∧
      ((main (env_with (syn_ack_net 5)) argv3 1).is_connected = true ∧
      (∃ k, k < 1 ∧ ((env_with (syn_ack_net 5)).net k).recv_packet.control = SYN_ACK ∧
        0 ≤ ((env_with (syn_ack_net 5)).net k).sendto_ack ∧
        net_ops (main (env_with (syn_ack_net 5)) argv3 1).trace =
          rounds (k + 1) ++ [NetOp.send]) ∧
      ∀ p ∈ sent (main (env_with (syn_ack_net 5)) argv3 1).trace,
        p.control ≠ DATA ∧ p.control ≠ FIN) :=
  ⟨by decide, C2_exit_success_is_handshake_only (env_with (syn_ack_net 5)) argv3 1 (by decide)⟩

/-- C3 (counterexample).  On a network on which no SYN_ACK ever arrives and
every send succeeds, `main` has not returned after any number of iterations,
and no bound holds on the number of SYN packets it sends. -/
theorem C3_unbounded_syn_transmissions :
    (∀ fuel, (main (env_with silent_net) argv3 fuel).exit = none) ∧
      ¬ ∃ N, ∀ fuel, (sent (main (env_with silent_net) argv3 fuel).trace).length ≤ N := by
  have key := fun fuel => main_no_syn_ack (env_with silent_net) argv3 fuel
    (setup_ok_env_with silent_net) (fun i => by simp [env_with, silent_net, reply_with, SYN_ACK])
  refine ⟨fun fuel => (key fuel).1, ?_⟩
  rintro ⟨N, hN⟩
  have h := hN (N + 1)
  rw [(key (N + 1)).2.2.1] at h
  simp at h

/-- C3 (amended).  If everything before the loop succeeds, every SYN is sent,
no `recvfrom` fails and no reply ever has a record with control SYN_ACK, the
handshake loop never gives up, for it has no retry bound: after `n`
iterations, for every `n`, `main` has not returned, is not connected, and has
sent exactly `n` copies of the packet of the SYN, each followed by one receive. -/
theorem C3_no_syn_ack_never_gives_up (env : Env) (argv : List String) (hs : SetupOk env argv)
    (h : ∀ i, 0 ≤ (env.net i).sendto_syn ∧ 0 ≤ (env.net i).recvfrom_ret ∧
      (env.net i).recv_packet.control ≠ SYN_ACK)
    (n : Nat) :
    (main env argv n).exit = none ∧ (main env argv n).is_connected = false ∧
      sent (main env argv n).trace = List.replicate n (syn_packet env) ∧
      net_ops (main env argv n).trace = rounds n :=
  main_no_syn_ack env argv n hs (fun i => ⟨(h i).1, (h i).2.2⟩)

theorem C3_no_syn_ack_never_gives_up_witness :
    SetupOk (env_with silent_net) argv3 ∧
      (∀ i, 0 ≤ ((env_with silent_net).net i).sendto_syn ∧
        0 ≤ ((env_with silent_net).net i).recvfrom_ret ∧
        ((env_with silent_net).net i).recv_packet.control ≠ SYN_ACK) ∧
      ((main (env_with silent_net) argv3 3).exit = none ∧
        (main (env_with silent_net) argv3 3).is_connected = false ∧
        sent (main (env_with silent_net) argv3 3).trace =
          List.replicate 3 (syn_packet (env_with silent_net)) ∧
        net_ops (main (env_with silent_net) argv3 3).trace = rounds 3) :=
  ⟨by decide,
    fun _ => show (0 : Int) ≤ 532 ∧ (0 : Int) ≤ 0 ∧ (0 : Nat) ≠ 1 by decide,
    C3_no_syn_ack_never_gives_up (env_with silent_net) argv3 (by decide)
      (fun _ => show (0 : Int) ≤ 532 ∧ (0 : Int) ≤ 0 ∧ (0 : Nat) ≠ 1 by decide) 3⟩

/-- C4 (the code departs from the claim).  `main` never reads the status of
`unpack_hail_packet`: a datagram for which the unpacking reports failure, and
whose record is left with the control code SYN_ACK, is answered with the second
send and makes the client connected; `main` returns `EXIT_SUCCESS`. -/
theorem C4_failed_unpack_still_connects (fuel : Nat) :
    ((env_with failed_unpack_net).net 0).unpack_status < 0 ∧
      (main (env_with failed_unpack_net) argv3 (fuel + 1)).is_connected = true ∧
      (main (env_with failed_unpack_net) argv3 (fuel + 1)).exit = some EXIT_SUCCESS ∧
      net_ops (main (env_with failed_unpack_net) argv3 (fuel + 1)).trace =
        [NetOp.send, NetOp.receive, NetOp.send] := by
  refine ⟨by decide, rfl, rfl, rfl⟩

/-- C5 (the code departs from the claim).  `main` never reads `bytes_received`:
when the first `recvfrom` returns -1, the receive buffer is unpacked all the
same, the loop goes on with a second SYN and a second receive, and with a
SYN_ACK as second reply `main` returns `EXIT_SUCCESS`. -/
theorem C5_failed_recvfrom_is_not_fatal :
    ((env_with failed_recvfrom_net).net 0).recvfrom_ret < 0 ∧
      (main (env_with failed_recvfrom_net) argv3 2).exit = some EXIT_SUCCESS ∧
      net_ops (main (env_with failed_recvfrom_net) argv3 2).trace =
        [NetOp.send, NetOp.receive, NetOp.send, NetOp.receive, NetOp.send] ∧
      (main (env_with failed_recvfrom_net) argv3 2).trace.drop 5 =
        [Event.construct_hail_packet 0 0 SYN 0 10 [0, 0, 0, 0],
         Event.sendto ⟨0, 0, SYN, 0, 10, [0, 0, 0, 0]⟩, Event.recvfrom (-1),
         Event.unpack_hail_packet 0 ⟨0, 0, 0, 0, 0, []⟩,
         Event.construct_hail_packet 0 0 SYN 0 10 [0, 0, 0, 0],
         Event.sendto ⟨0, 0, SYN, 0, 10, [0, 0, 0, 0]⟩, Event.recvfrom 532,
         Event.unpack_hail_packet 0 ⟨9, 0, SYN_ACK, 0, 0, []⟩,
         Event.sendto ⟨0, 0, SYN, 0, 10, [0, 0, 0, 0]⟩,
         Event.freeaddrinfo, Event.close, Event.free, Event.free, Event.free] := by
  decide

/-- C6.  If `open` fails, `stat` fails, the file is not a regular file or
`read` fails, `main` returns a non-zero exit status and sends no datagram; and
in every run, before any datagram is sent, all four checks have passed and the
calls of `open`, `stat` and `read` have been made. -/
theorem C6_no_datagram_without_the_file (env : Env) (argv : List String) (fuel : Nat) :
    ((env.open_ret < 0 ∨ env.stat_ret < 0 ∨ env.is_reg = false ∨ env.read_ret < 0) →
        (∃ c, (main env argv fuel).exit = some c ∧ c ≠ 0) ∧
        sent (main env argv fuel).trace = []) ∧
      (∀ pre p post, (main env argv fuel).trace = pre ++ Event.sendto p :: post →
        (0 ≤ env.open_ret ∧ 0 ≤ env.stat_ret ∧ env.is_reg = true ∧ 0 ≤ env.read_ret) ∧
        Event.open_file (argv.getD 3 "") ∈ pre ∧ Event.stat (argv.getD 3 "") ∈ pre ∧
        Event.read env.st_size ∈ pre) := by
  constructor
  · intro hfail
    have hn : ¬ SetupOk env argv := by
      rintro ⟨_, _, _, _, ho, hst, hr, hrd⟩
      rcases hfail with h | h | h | h
      · exact absurd ho (Int.not_le.mpr h)
      · exact absurd hst (Int.not_le.mpr h)
      · rw [hr] at h
        exact absurd h (by decide)
      · exact absurd hrd (Int.not_le.mpr h)
    obtain ⟨he, _, hsent, _⟩ := main_of_not_setup env argv fuel hn
    exact ⟨⟨EXIT_FAILURE, he, by decide⟩, hsent⟩
  · intro pre p post htr
    by_cases hs : SetupOk env argv
    · obtain ⟨c, hc⟩ := after_loop_trace
        ((handshake_loop env fuel 0 env.malloc_packet).after (setup_trace env argv))
      rw [main_of_setup env argv fuel hs, hc, after_trace, List.append_assoc] at htr
      obtain ⟨r, hr⟩ := prefix_of_no_send _ _ _ _ _ (sent_setup_trace env argv) htr
      obtain ⟨_, _, _, _, ho, hst, hreg, hrd⟩ := hs
      refine ⟨⟨ho, hst, hreg, hrd⟩, ?_, ?_, ?_⟩ <;> simp [hr, setup_trace]
    · have hsent := (main_of_not_setup env argv fuel hs).2.2.1
      rw [htr] at hsent
      simp [sent_append, sent] at hsent

theorem C6_no_datagram_without_the_file_witness :
    ((∃ c, (main env_open_fails argv3 3).exit = some c ∧ c ≠ 0) ∧
        sent (main env_open_fails argv3 3).trace = []) ∧
      ((0 ≤ (env_with (syn_ack_net 5)).open_ret ∧ 0 ≤ (env_with (syn_ack_net 5)).stat_ret ∧
          (env_with (syn_ack_net 5)).is_reg = true ∧ 0 ≤ (env_with (syn_ack_net 5)).read_ret) ∧
        Event.open_file (argv3.getD 3 "") ∈ (main (env_with (syn_ack_net 5)) argv3 3).trace.take 6 ∧
        Event.stat (argv3.getD 3 "") ∈ (main (env_with (syn_ack_net 5)) argv3 3).trace.take 6 ∧
        Event.read (env_with (syn_ack_net 5)).st_size ∈
          (main (env_with (syn_ack_net 5)) argv3 3).trace.take 6) :=
  ⟨(C6_no_datagram_without_the_file env_open_fails argv3 3).1 (Or.inl (by decide)),
    (C6_no_datagram_without_the_file (env_with (syn_ack_net 5)) argv3 3).2
      ((main (env_with (syn_ack_net 5)) argv3 3).trace.take 6) ⟨0, 0, SYN, 0, 10, [0, 0, 0, 0]⟩
      ((main (env_with (syn_ack_net 5)) argv3 3).trace.drop 7) (by decide)⟩

/-- C7.  With fewer than three positional arguments (`argc < 4`) `main` prints
the usage text and returns `EXIT_FAILURE`, a non-zero status; it resolves no
address, creates no socket, touches no file and sends nothing. -/
theorem C7_too_few_arguments (env : Env) (argv : List String) (fuel : Nat)
    (h : argv.length < 4) :
    main env argv fuel =
        ⟨some EXIT_FAILURE, false, none, [Event.printf_usage (argv.getD 0 "")]⟩ ∧
      EXIT_FAILURE ≠ 0 ∧
      ∀ e ∈ (main env argv fuel).trace, is_system_call e = false := by
  have hm : main env argv fuel =
      ⟨some EXIT_FAILURE, false, none, [Event.printf_usage (argv.getD 0 "")]⟩ := by
    unfold main
    simp [h]
  refine ⟨hm, by decide, ?_⟩
  rw [hm]
  intro e he
  simp at he
  subst he
  rfl

theorem C7_too_few_arguments_witness :
    ["client", "localhost", "5000"].length < 4 ∧
      (main (env_with (syn_ack_net 5)) ["client", "localhost", "5000"] 3 =
        ⟨some EXIT_FAILURE, false, none,
          [Event.printf_usage (["client", "localhost", "5000"].getD 0 "")]⟩ ∧
      EXIT_FAILURE ≠ 0 ∧
      ∀ e ∈ (main (env_with (syn_ack_net 5)) ["client", "localhost", "5000"] 3).trace,
        is_system_call e = false) :=
  ⟨by decide,
    C7_too_few_arguments (env_with (syn_ack_net 5)) ["client", "localhost", "5000"] 3
      (by decide)⟩

/-- C8 (counterexample).  With the three positional arguments alone the run
completes the handshake and returns `EXIT_SUCCESS`; with the same arguments
followed by the three option arguments `-l 0.5 -s`, and the same results of
the system calls, `main` prints that options are not implemented and returns
`EXIT_FAILURE` without a single system call. -/
theorem C8_three_option_arguments_are_rejected :
    (main (env_with (syn_ack_net 5)) argv3 1).exit = some EXIT_SUCCESS ∧
      (sent (main (env_with (syn_ack_net 5)) argv3 1).trace).length = 2 ∧
      main (env_with (syn_ack_net 5)) argv_options 1 =
        ⟨some EXIT_FAILURE, false, none, [Event.printf_options_not_implemented]⟩ ∧
      main (env_with (syn_ack_net 5)) argv_options 1 ≠
        main (env_with (syn_ack_net 5)) argv3 1 := by
  decide

/-- C8 (amended).  The option arguments are accepted and inert unless there are
exactly three of them: for every argument vector with the three positional
arguments followed by a number of option arguments other than three, `main`
behaves exactly as with the three positional arguments alone (same calls, same
datagrams, same exit status, given the same results of the system calls); with
exactly three option arguments (`argc == 7`) it prints that options are not
implemented and returns `EXIT_FAILURE` without any system call. -/
theorem C8_options_inert_unless_three (env : Env) (prog hostname port filename : String)
    (options : List String) (fuel : Nat) :
    (options.length ≠ 3 →
        main env (prog :: hostname :: port :: filename :: options) fuel =
          main env [prog, hostname, port, filename] fuel) ∧
      (options.length = 3 →
        main env (prog :: hostname :: port :: filename :: options) fuel =
          ⟨some EXIT_FAILURE, false, none, [Event.printf_options_not_implemented]⟩) := by
  constructor
  · intro h
    unfold main
    simp [h]
  · intro h
    unfold main
    simp [h]

theorem C8_options_inert_unless_three_witness :
    (main (env_with (syn_ack_net 5)) ("client" :: "localhost" :: "5000" :: "notes.txt" ::
          ["--loss", "0.5", "--corrupt", "0.1"]) 2 =
        main (env_with (syn_ack_net 5)) ["client", "localhost", "5000", "notes.txt"] 2) ∧
      (main (env_with (syn_ack_net 5)) ("client" :: "localhost" :: "5000" :: "notes.txt" ::
          ["-l", "0.5", "-s"]) 2 =
        ⟨some EXIT_FAILURE, false, none, [Event.printf_options_not_implemented]⟩) :=
  ⟨(C8_options_inert_unless_three (env_with (syn_ack_net 5)) "client" "localhost" "5000"
      "notes.txt" ["--loss", "0.5", "--corrupt", "0.1"] 2).1 (by decide),
    (C8_options_inert_unless_three (env_with (syn_ack_net 5)) "client" "localhost" "5000"
      "notes.txt" ["-l", "0.5", "-s"] 2).2 (by decide)⟩

/-- C9.  When everything before the loop succeeds, the sends of the first
iteration succeed and the first reply unpacks to a SYN_ACK, the handshake takes
one round trip: the transport calls of the run are exactly send, receive, send,
the loop is left connected, and `main` returns `EXIT_SUCCESS`.  This holds for
every number of allowed iterations from one on. -/
theorem C9_one_round_trip (env : Env) (argv : List String) (fuel : Nat)
    (hs : SetupOk env argv) (h1 : 0 ≤ (env.net 0).sendto_syn)
    (h2 : (env.net 0).recv_packet.control = SYN_ACK) (h3 : 0 ≤ (env.net 0).sendto_ack) :
    net_ops (main env argv (fuel + 1)).trace = [NetOp.send, NetOp.receive, NetOp.send] ∧
      (main env argv (fuel + 1)).is_connected = true ∧
      (main env argv (fuel + 1)).exit = some EXIT_SUCCESS := by
  have hl : handshake_loop env (fuel + 1) 0 env.malloc_packet =
      { exit := none, is_connected := true,
        locals := some ⟨((env.net 0).recv_packet.seq_num + 1) % 256,
          (env.net 0).recv_packet.seq_num, ACK, 0⟩,
        trace := iteration_events env 0 ++ [Event.sendto (syn_packet env)] } := by
    rw [handshake_loop_succ, if_neg (Int.not_lt.mpr h1), if_pos h2, if_neg (Int.not_lt.mpr h3)]
  rw [main_of_setup env argv (fuel + 1) hs, hl]
  refine ⟨?_, ?_, ?_⟩
  · rw [after_loop_net_ops]
    simp only [after_trace, net_ops_append, net_ops_setup_trace, net_ops_iteration_events]
    rfl
  · rw [after_loop_is_connected]
    rfl
  · exact after_loop_exit_of_connected _ rfl rfl

theorem C9_one_round_trip_witness :
    SetupOk (env_with (syn_ack_net 5)) argv3 ∧
      0 ≤ ((env_with (syn_ack_net 5)).net 0).sendto_syn ∧
      ((env_with (syn_ack_net 5)).net 0).recv_packet.control = SYN_ACK ∧
      0 ≤ ((env_with (syn_ack_net 5)).net 0).sendto_ack ∧
      (net_ops (main (env_with (syn_ack_net 5)) argv3 (0 + 1)).trace =
          [NetOp.send, NetOp.receive, NetOp.send] ∧
        (main (env_with (syn_ack_net 5)) argv3 (0 + 1)).is_connected = true ∧
        (main (env_with (syn_ack_net 5)) argv3 (0 + 1)).exit = some EXIT_SUCCESS) :=
  ⟨by decide, by decide, by decide, by decide,
    C9_one_round_trip (env_with (syn_ack_net 5)) argv3 0 (by decide) (by decide) (by decide)
      (by decide)⟩

/-- C10.  In every run and in every iteration of the handshake loop, however
many replies came before, `construct_hail_packet` is called with
sequence_number 0, ack_number 0, control SYN, version 0, the size of the file
as total_size (for a size that fits the 64-bit field) and an all-zero payload
of `HAIL_CONTENT_SIZE` bytes; and every datagram sent is that one packet, so
the n-th SYN sent equals the first for every n. -/
theorem C10_every_syn_is_the_same_packet (env : Env) (argv : List String) (fuel : Nat)
    (hsize : env.st_size < 2 ^ 64) :
    (∀ a b c d s l, Event.construct_hail_packet a b c d s l ∈ (main env argv fuel).trace →
        a = 0 ∧ b = 0 ∧ c = SYN ∧ d = 0 ∧ s = env.st_size ∧
        l = List.replicate env.HAIL_CONTENT_SIZE 0) ∧
      (∀ p ∈ sent (main env argv fuel).trace,
        p = ⟨0, 0, SYN, 0, env.st_size, List.replicate env.HAIL_CONTENT_SIZE 0⟩) ∧
      (∀ n (hn : n < (sent (main env argv fuel).trace).length),
        (sent (main env argv fuel).trace).get ⟨n, hn⟩ =
          (sent (main env argv fuel).trace).get ⟨0, Nat.lt_of_le_of_lt (Nat.zero_le n) hn⟩) := by
  have hmod : env.st_size % 2 ^ 64 = env.st_size := Nat.mod_eq_of_lt hsize
  have hall : ∀ p ∈ sent (main env argv fuel).trace,
      p = ⟨0, 0, SYN, 0, env.st_size, List.replicate env.HAIL_CONTENT_SIZE 0⟩ := by
    intro p hp
    by_cases hs : SetupOk env argv
    · rw [main_of_setup env argv fuel hs, after_loop_sent] at hp
      simp only [after_trace, sent_append, sent_setup_trace, List.nil_append] at hp
      rw [loop_sent env fuel 0 env.malloc_packet p hp, syn_packet, hmod, file_data]
    · rw [(main_of_not_setup env argv fuel hs).2.2.1] at hp
      simp at hp
  refine ⟨?_, hall, ?_⟩
  · intro a b c d s l hmem
    by_cases hs : SetupOk env argv
    · rw [main_of_setup env argv fuel hs] at hmem
      have hmem2 := after_loop_construct _ a b c d s l hmem
      simp only [after_trace, List.mem_append] at hmem2
      rcases hmem2 with hm | hm
      · exfalso
        simp only [setup_trace, List.mem_append, List.mem_singleton] at hm
        rcases hm with (((hm | hm) | hm) | hm) | hm
        · cases hm
        · have := mem_socket_loop env _ _ _ hm
          cases this
        · cases hm
        · cases hm
        · cases hm
      · have := loop_construct env fuel 0 env.malloc_packet a b c d s l hm
        rw [hmod, file_data] at this
        exact this
    · exact absurd hmem ((main_of_not_setup env argv fuel hs).2.2.2 a b c d s l)
  · intro n hn
    rw [hall _ (List.get_mem _ _ _), hall _ (List.get_mem _ _ _)]

theorem C10_every_syn_is_the_same_packet_witness :
    (env_with silent_net).st_size < 2 ^ 64 ∧
      (sent (main (env_with silent_net) argv3 3).trace).length = 3 ∧
      ((∀ a b c d s l, Event.construct_hail_packet a b c d s l ∈
            (main (env_with silent_net) argv3 3).trace →
          a = 0 ∧ b = 0 ∧ c = SYN ∧ d = 0 ∧ s = (env_with silent_net).st_size ∧
          l = List.replicate (env_with silent_net).HAIL_CONTENT_SIZE 0) ∧
        (∀ p ∈ sent (main (env_with silent_net) argv3 3).trace,
          p = ⟨0, 0, SYN, 0, (env_with silent_net).st_size,
            List.replicate (env_with silent_net).HAIL_CONTENT_SIZE 0⟩) ∧
        (∀ n (hn : n < (sent (main (env_with silent_net) argv3 3).trace).length),
          (sent (main (env_with silent_net) argv3 3).trace).get ⟨n, hn⟩ =
            (sent (main (env_with silent_net) argv3 3).trace).get
              ⟨0, Nat.lt_of_le_of_lt (Nat.zero_le n) hn⟩)) :=
  ⟨by decide, by decide,
    C10_every_syn_is_the_same_packet (env_with silent_net) argv3 3 (by decide)⟩

end Hail
